import Mathlib

/-!
Shallow embedding of the Moltbook identity-verification middleware
(`middleware/moltbook-auth.js`, with the configurable-header variant from
`moltbook-auth.types.ts`) and proofs about its observable behaviour.

The middleware reads a token header, forwards it to a remote verification
endpoint together with an application key and an audience string, and
translates the remote JSON reply into either an attached verified-agent
object plus a "continue" signal, or a terminated HTTP error response whose
status comes from a fixed error-code table.

Modelling conventions:
- JavaScript values that may be `undefined` become `Option`.
- The truthiness test `!x` on a string-or-undefined value becomes
  `strFalsy : Option String → Bool` (true for `undefined` and `""`).
- The remote endpoint and transport are a parameter `RemoteBehavior`:
  the fetch call can reject (network error / timeout), the body parse can
  reject (non-JSON / malformed body), or a parsed response object arrives.
- JavaScript exceptions inside the middleware's `try` block are an
  `Except` layer (`verifyTryBody`); the surrounding `catch` is the match
  in `verifyMoltbookIdentity` that turns any thrown error into the 500
  "Failed to verify identity" response.
- One outbound call happens per run at most; `fetchCalled` records the
  POST payload when the call was issued, `none` when no network call
  was made.
-/

namespace Moltbook

/-- Usage statistics embedded in an agent profile (`MoltbookAgent.stats`). -/
structure AgentStats where
  posts : Nat
  comments : Nat
deriving Repr, DecidableEq

/-- The human controller of an agent (`MoltbookAgent.owner`). -/
structure OwnerProfile where
  x_handle : String
  x_name : String
  x_avatar : String
  x_verified : Bool
  x_follower_count : Nat
deriving Repr, DecidableEq

/-- Verified agent profile returned by the remote service (`MoltbookAgent`). -/
structure MoltbookAgent where
  id : String
  name : String
  description : String
  karma : Int
  avatar_url : String
  is_claimed : Bool
  created_at : String
  follower_count : Nat
  following_count : Nat
  stats : AgentStats
  owner : OwnerProfile
deriving Repr, DecidableEq

/-- Parsed remote response body (`MoltbookVerificationResponse`):
`{ success, valid, agent?, error?, hint? }`. -/
structure RemoteData where
  success : Bool
  valid : Bool
  agent : Option MoltbookAgent
  error : Option String
  hint : Option String
deriving Repr, DecidableEq

/-- Behaviour of the remote verification endpoint and of the transport for a
single outbound call: `fetch` rejects, `response.json()` rejects, or a parsed
response object is delivered. -/
inductive RemoteBehavior where
  | fetchError
  | jsonError
  | respond (data : RemoteData)
deriving Repr, DecidableEq

/-- A JavaScript exception, as observed by a `catch` or by the caller of a
rejected promise. -/
inductive JsError where
  | fetchFailed
  | jsonParseFailed
  | typeError (msg : String)
  | thrown (msg : String)
deriving Repr, DecidableEq

/-- JavaScript `x || d` on a string-or-undefined `x`: the default is taken
when `x` is `undefined` or the empty string (both falsy). -/
def jsOr (x : Option String) (d : String) : String :=
  match x with
  | none => d
  | some s => if s.isEmpty then d else s

/-- Truthiness test `!x` on a string-or-undefined value. -/
def strFalsy (x : Option String) : Bool :=
  match x with
  | none => true
  | some s => s.isEmpty

/-- The POST body sent to the remote endpoint:
`{ token: identityToken, audience: MY_DOMAIN }`. -/
structure VerificationRequest where
  token : String
  audience : String
deriving Repr, DecidableEq

/-- An HTTP error response terminated by the middleware:
`res.status(status).json({ error, hint })`.  `error` and `hint` are optional
because `JSON.stringify` drops a member whose value is `undefined` (the
remote rejection body omits `error` then) or a function (a hint read that
hit an inherited `Object.prototype` member). -/
structure HttpResponse where
  status : Nat
  error : Option String
  hint : Option String
deriving Repr, DecidableEq

/-- An inbound request as the hosting framework delivers it: `req.headers`
is a name → value map whose names Node.js has already lowercased. -/
structure Request where
  headers : List (String × String)
deriving Repr, DecidableEq

/-- `req.headers[name]`: exact-key lookup in the delivered header map. -/
def headerLookup (headers : List (String × String)) (name : String) :
    Option String :=
  (headers.find? (fun p => p.1 = name)).map Prod.snd

/-- ASCII lowercasing of a single character (header names are ASCII tokens). -/
def lowerChar (c : Char) : Char :=
  if 65 ≤ c.toNat ∧ c.toNat ≤ 90 then Char.ofNat (c.toNat + 32) else c

/-- ASCII lowercasing of a string, character by character. -/
def lowerAscii (s : String) : String :=
  ⟨s.data.map lowerChar⟩

/-- Node.js lowercases incoming header names before exposing them on
`req.headers`; this maps the names of the headers as sent on the wire to the
delivered map. -/
def normalizeHeaders (sent : List (String × String)) :
    List (String × String) :=
  sent.map (fun p => (lowerAscii p.1, p.2))

/-- The `statusMap` table inside `getStatusCodeForError`. -/
def statusMap : List (String × Nat) :=
  [("identity_token_expired", 401),
   ("invalid_token", 401),
   ("agent_not_found", 404),
   ("agent_deactivated", 403),
   ("audience_required", 401),
   ("audience_mismatch", 401),
   ("rate_limit_exceeded", 429),
   ("missing_app_key", 401),
   ("invalid_app_key", 401)]

/-- Own property names of `Object.prototype` in Node.js.  An object-literal
lookup that misses every own key continues along the prototype chain, so
reading any of these names on the `statusMap`/`hints` literals yields a
truthy inherited value: a function, or the prototype object itself for
`__proto__`. -/
def objectPrototypeKeys : List String :=
  ["constructor", "hasOwnProperty", "isPrototypeOf", "propertyIsEnumerable",
   "toLocaleString", "toString", "valueOf", "__defineGetter__",
   "__defineSetter__", "__lookupGetter__", "__lookupSetter__", "__proto__"]

/-- A JavaScript property read `table[key]` on an object literal: an own
entry, a truthy member inherited from `Object.prototype`, or `undefined`.
An absent `key` (`table[undefined]`) coerces to the property name
`"undefined"`, which is neither own nor inherited. -/
inductive PropRead (α : Type) where
  | ownValue (a : α)
  | inherited (name : String)
  | undefinedVal
deriving Repr, DecidableEq

/-- `table[key]` with prototype-chain semantics: own keys first, then the
members of `Object.prototype`, then `undefined`. -/
def propRead {α : Type} (l : List (String × α)) (key : Option String) :
    PropRead α :=
  match key with
  | none => .undefinedVal
  | some k =>
    match (l.find? (fun p => p.1 = k)).map Prod.snd with
    | some v => .ownValue v
    | none => if k ∈ objectPrototypeKeys then .inherited k else .undefinedVal

/-- What `statusMap[error] || 401` hands to `res.status`: a number — an own
entry, or 401 after an `undefined` lookup (every own status is nonzero, so
`||` never overrides a hit) — or the truthy non-number `Object.prototype`
member that an unrecognized prototype-named code inherits, which `||`
passes through unchanged. -/
inductive StatusResult where
  | num (n : Nat)
  | nonNum (name : String)
deriving Repr, DecidableEq

/-- `getStatusCodeForError(error)`: `statusMap[error] || 401`. -/
def getStatusCodeForError (error : Option String) : StatusResult :=
  match propRead statusMap error with
  | .ownValue n => .num n
  | .inherited name => .nonNum name
  | .undefinedVal => .num 401

/-- The `hints` table inside `getErrorHint`. -/
def hintMap : List (String × String) :=
  [("identity_token_expired",
    "Your identity token has expired. Request a new token from Moltbook and try again."),
   ("invalid_token",
    "The identity token is malformed or has been tampered with."),
   ("agent_not_found",
    "The agent associated with this token no longer exists."),
   ("agent_deactivated",
    "This agent has been deactivated or banned."),
   ("audience_required",
    "This token requires audience verification."),
   ("audience_mismatch",
    "This token was issued for a different service."),
   ("rate_limit_exceeded",
    "Too many verification requests. Please wait and try again."),
   ("missing_app_key",
    "The server is not configured with a Moltbook app key."),
   ("invalid_app_key",
    "The server's Moltbook app key is invalid or has been revoked.")]

/-- What `hints[error] || 'Identity verification failed.'` evaluates to: a
string, or the truthy inherited `Object.prototype` member for a
prototype-named code. -/
inductive HintResult where
  | str (s : String)
  | nonStr (name : String)
deriving Repr, DecidableEq

/-- `getErrorHint(error)`: `hints[error] || 'Identity verification failed.'`. -/
def getErrorHint (error : Option String) : HintResult :=
  match propRead hintMap error with
  | .ownValue h => .str h
  | .inherited name => .nonStr name
  | .undefinedVal => .str "Identity verification failed."

/-- The `hint` member of the serialized rejection body: `JSON.stringify`
emits a string and drops a function-valued (inherited) member. -/
def jsonHint : HintResult → Option String
  | .str s => some s
  | .nonStr _ => none

/-- Effects performed inside the middleware's `try` block when no exception
escapes it: the response sent (if any), the number of `next()` invocations,
and the value assigned to `req.moltbookAgent` (if any). -/
structure TryResult where
  response : Option HttpResponse
  nextCalls : Nat
  moltbookAgent : Option MoltbookAgent
deriving Repr, DecidableEq

/-- The body of the middleware's `try` block, after the outbound call has
been issued.  A thrown exception is `.error (e, assigned)` where `assigned`
is the value `req.moltbookAgent` holds at throw time: the `valid` path first
assigns `req.moltbookAgent = data.agent`, then the log line reads
`data.agent.name`, which throws a TypeError when `data.agent` is
`undefined`. -/
def verifyTryBody (remote : RemoteBehavior) :
    Except (JsError × Option MoltbookAgent) TryResult :=
  match remote with
  | .fetchError => .error (JsError.fetchFailed, none)
  | .jsonError => .error (JsError.jsonParseFailed, none)
  | .respond data =>
    if data.valid = false then
      match getStatusCodeForError data.error with
      | .num n =>
        .ok { response := some { status := n,
                                 error := data.error,
                                 hint := jsonHint (getErrorHint data.error) },
              nextCalls := 0,
              moltbookAgent := none }
      | .nonNum _ =>
        -- `res.status` received the truthy inherited prototype member;
        -- writing the response throws ERR_HTTP_INVALID_STATUS_CODE inside
        -- the `try` block
        .error (JsError.thrown "ERR_HTTP_INVALID_STATUS_CODE", none)
    else
      match data.agent with
      | some a =>
        .ok { response := none, nextCalls := 1, moltbookAgent := some a }
      | none =>
        .error
          (JsError.typeError "Cannot read properties of undefined (reading 'name')",
           none)

/-- Observable outcome of one run of `verifyMoltbookIdentity`. -/
structure Outcome where
  response : Option HttpResponse
  nextCalls : Nat
  moltbookAgent : Option MoltbookAgent
  fetchCalled : Option VerificationRequest
deriving Repr, DecidableEq

/-- `verifyMoltbookIdentity(req, res, next)`.  `appKey` is
`process.env.MOLTBOOK_APP_KEY` and `audienceEnv` is
`process.env.MOLTBOOK_AUDIENCE` (so `jsOr audienceEnv "default"` is
`MY_DOMAIN`).  The outer match on `verifyTryBody` is the `catch` block:
every exception thrown inside `try` becomes the 500
"Failed to verify identity" response. -/
def verifyMoltbookIdentity (appKey audienceEnv : Option String)
    (req : Request) (remote : RemoteBehavior) : Outcome :=
  let identityToken := headerLookup req.headers "x-moltbook-identity"
  if strFalsy identityToken then
    { response := some { status := 401,
                         error := some "Missing identity token",
                         hint := some "Include X-Moltbook-Identity header with your identity token" },
      nextCalls := 0, moltbookAgent := none, fetchCalled := none }
  else if strFalsy appKey then
    { response := some { status := 500,
                         error := some "Server configuration error",
                         hint := some "MOLTBOOK_APP_KEY is not configured" },
      nextCalls := 0, moltbookAgent := none, fetchCalled := none }
  else
    let payload : VerificationRequest :=
      { token := identityToken.getD "", audience := jsOr audienceEnv "default" }
    match verifyTryBody remote with
    | .ok r =>
      { response := r.response, nextCalls := r.nextCalls,
        moltbookAgent := r.moltbookAgent, fetchCalled := some payload }
    | .error (_, assigned) =>
      { response := some { status := 500,
                           error := some "Failed to verify identity",
                           hint := some "An error occurred while verifying your identity. Please try again." },
        nextCalls := 0, moltbookAgent := assigned, fetchCalled := some payload }

instance {ε α : Type} [DecidableEq ε] [DecidableEq α] :
    DecidableEq (Except ε α) := fun a b =>
  match a, b with
  | .ok x, .ok y =>
    if h : x = y then .isTrue (by rw [h]) else .isFalse (by simp [h])
  | .error x, .error y =>
    if h : x = y then .isTrue (by rw [h]) else .isFalse (by simp [h])
  | .ok _, .error _ => .isFalse (by simp)
  | .error _, .ok _ => .isFalse (by simp)

/-- Observable outcome of one call of the standalone `verifyIdentityToken`:
the settled promise (`.ok` = resolved with the parsed body, `.error` = the
function threw or the promise rejected), plus the POST payload when the
outbound call was issued. -/
structure StandaloneRun where
  result : Except JsError RemoteData
  fetchCalled : Option VerificationRequest
deriving Repr, DecidableEq

/-- `verifyIdentityToken(identityToken)`: throws when the app key is not
configured, otherwise forwards `{ token, audience: MY_DOMAIN }` and returns
the parsed response body unchanged; a transport or parse failure propagates
to the caller as a rejection. -/
def verifyIdentityToken (appKey audienceEnv : Option String)
    (identityToken : String) (remote : RemoteBehavior) : StandaloneRun :=
  if strFalsy appKey then
    { result := .error (JsError.thrown "MOLTBOOK_APP_KEY environment variable is not set"),
      fetchCalled := none }
  else
    let payload : VerificationRequest :=
      { token := identityToken, audience := jsOr audienceEnv "default" }
    match remote with
    | .fetchError => { result := .error JsError.fetchFailed, fetchCalled := some payload }
    | .jsonError => { result := .error JsError.jsonParseFailed, fetchCalled := some payload }
    | .respond data => { result := .ok data, fetchCalled := some payload }

/-- Configuration object of the TypeScript `MoltbookAuthMiddleware` class
(`MoltbookAuthConfig`); optional fields are defaulted in the constructor
with `||`. -/
structure MoltbookAuthConfig where
  apiKey : String
  audience : Option String
  verifyEndpoint : Option String
  headerName : Option String
deriving Repr, DecidableEq

/-- `this.headerName = config.headerName || 'x-moltbook-identity'`. -/
def effectiveHeaderName (cfg : MoltbookAuthConfig) : String :=
  jsOr cfg.headerName "x-moltbook-identity"

/-- Token extraction in the TypeScript `verify`:
`req.headers[this.headerName]`, applied to the header map as Node.js
delivers it (names lowercased by the transport). -/
def tsExtractToken (cfg : MoltbookAuthConfig)
    (sent : List (String × String)) : Option String :=
  headerLookup (normalizeHeaders sent) (effectiveHeaderName cfg)

/-- A concrete agent profile, used to instantiate theorems at a concrete
input (shape taken from the end-to-end scenario in the documentation). -/
def sampleAgent : MoltbookAgent :=
  { id := "u1", name := "Bot", description := "demo bot", karma := 420,
    avatar_url := "https://example.com/a.png", is_claimed := true,
    created_at := "2025-01-15T00:00:00Z", follower_count := 42,
    following_count := 10, stats := { posts := 156, comments := 892 },
    owner := { x_handle := "human_owner", x_name := "Human Name",
               x_avatar := "https://example.com/h.png", x_verified := true,
               x_follower_count := 10000 } }

/-- A concrete remote rejection body, used to instantiate theorems at a
concrete input. -/
def rejData : RemoteData :=
  { success := false, valid := false, agent := none,
    error := some "rate_limit_exceeded", hint := none }

/-- A concrete remote rejection whose code names an `Object.prototype`
member, so the status lookup returns the truthy inherited value. -/
def protoRejData : RemoteData :=
  { success := false, valid := false, agent := none,
    error := some "constructor", hint := none }

/-! ## Helper lemmas -/

/-- A key that is not among a table's keys makes the table lookup miss. -/
theorem find_eq_none_of_not_mem_keys {α : Type} (l : List (String × α))
    (e : String) (h : e ∉ l.map Prod.fst) :
    l.find? (fun p => p.1 = e) = none := by
  rw [List.find?_eq_none]
  intro x hx hpx
  exact h (List.mem_map.mpr ⟨x, hx, of_decide_eq_true hpx⟩)

/-- Every run of the middleware terminates in exactly one of the two
signals: an error response (with no `next` call and no attached agent), or a
single `next` call with an attached agent and no error response.  In
particular no run ends with neither signal (an unhandled fault) or with
both. -/
theorem verify_outcome_classified (appKey audienceEnv : Option String)
    (req : Request) (remote : RemoteBehavior) :
    ((verifyMoltbookIdentity appKey audienceEnv req remote).response.isSome = true ∧
     (verifyMoltbookIdentity appKey audienceEnv req remote).nextCalls = 0 ∧
     (verifyMoltbookIdentity appKey audienceEnv req remote).moltbookAgent = none) ∨
    ((verifyMoltbookIdentity appKey audienceEnv req remote).response = none ∧
     (verifyMoltbookIdentity appKey audienceEnv req remote).nextCalls = 1 ∧
     (verifyMoltbookIdentity appKey audienceEnv req remote).moltbookAgent.isSome = true) := by
  unfold verifyMoltbookIdentity
  cases h : headerLookup req.headers "x-moltbook-identity" with
  | none => left; simp [h, strFalsy]
  | some t =>
    cases he : t.isEmpty with
    | true =>
      have hf : strFalsy (some t) = true := by simp [strFalsy, he]
      left; simp [h, hf]
    | false =>
      have hf : strFalsy (some t) = false := by simp [strFalsy, he]
      cases hk : strFalsy appKey with
      | true => left; simp [h, hf, hk]
      | false =>
        cases remote with
        | fetchError => left; simp [h, hf, hk, verifyTryBody]
        | jsonError => left; simp [h, hf, hk, verifyTryBody]
        | respond data =>
          cases hv : data.valid with
          | false =>
            cases hsc : getStatusCodeForError data.error with
            | num n => left; simp [h, hf, hk, verifyTryBody, hv, hsc]
            | nonNum name => left; simp [h, hf, hk, verifyTryBody, hv, hsc]
          | true =>
            cases ha : data.agent with
            | none => left; simp [h, hf, hk, verifyTryBody, hv, ha]
            | some a => right; simp [h, hf, hk, verifyTryBody, hv, ha]

/-! ## Claims -/

/-- C1 as stated is false: for the unrecognized code `"constructor"` the
object-literal lookup `statusMap['constructor']` returns the truthy
inherited `Object.prototype.constructor`, `||` passes it through to
`res.status`, writing the response throws inside the `try` block, and the
catch sends the 500 "Failed to verify identity" body — not status 401 with
the generic hint. -/
theorem claim_C1_counterexample :
    (verifyMoltbookIdentity (some "appkey") none
      { headers := [("x-moltbook-identity", "tok123")] }
      (RemoteBehavior.respond protoRejData)).response.map HttpResponse.status =
      some 500 ∧
    ¬ ((verifyMoltbookIdentity (some "appkey") none
      { headers := [("x-moltbook-identity", "tok123")] }
      (RemoteBehavior.respond protoRejData)).response.map HttpResponse.status =
      some 401) := by
  decide

/-- C1 (amended): the table lookup yields exactly the authoritative status
for each of the nine enumerated codes; an absent `error` field yields 401
with the generic hint; any unrecognized code that does not name an
`Object.prototype` member also yields 401 with the generic hint.  For every
rejection the middleware sends the looked-up number as the status when the
lookup produced one, and — when an unrecognized prototype-named code made
the lookup pass the truthy inherited member through — the response write
throws and the catch sends the 500 "Failed to verify identity" body
instead.  In every case the middleware terminates in a response; no crash
escapes. -/
theorem claim_C1 :
    getStatusCodeForError (some "identity_token_expired") = StatusResult.num 401 ∧
    getStatusCodeForError (some "invalid_token") = StatusResult.num 401 ∧
    getStatusCodeForError (some "agent_not_found") = StatusResult.num 404 ∧
    getStatusCodeForError (some "agent_deactivated") = StatusResult.num 403 ∧
    getStatusCodeForError (some "audience_required") = StatusResult.num 401 ∧
    getStatusCodeForError (some "audience_mismatch") = StatusResult.num 401 ∧
    getStatusCodeForError (some "rate_limit_exceeded") = StatusResult.num 429 ∧
    getStatusCodeForError (some "missing_app_key") = StatusResult.num 401 ∧
    getStatusCodeForError (some "invalid_app_key") = StatusResult.num 401 ∧
    getStatusCodeForError none = StatusResult.num 401 ∧
    getErrorHint none = HintResult.str "Identity verification failed." ∧
    (∀ e : String, e ∉ statusMap.map Prod.fst → e ∉ objectPrototypeKeys →
      getStatusCodeForError (some e) = StatusResult.num 401) ∧
    (∀ e : String, e ∉ hintMap.map Prod.fst → e ∉ objectPrototypeKeys →
      getErrorHint (some e) = HintResult.str "Identity verification failed.") ∧
    (∀ (appKey audienceEnv : Option String) (req : Request) (t : String)
       (data : RemoteData),
      headerLookup req.headers "x-moltbook-identity" = some t →
      t.isEmpty = false → strFalsy appKey = false → data.valid = false →
      (∀ n : Nat, getStatusCodeForError data.error = StatusResult.num n →
        (verifyMoltbookIdentity appKey audienceEnv req
          (RemoteBehavior.respond data)).response =
          some { status := n, error := data.error,
                 hint := jsonHint (getErrorHint data.error) }) ∧
      (∀ name : String,
        getStatusCodeForError data.error = StatusResult.nonNum name →
        (verifyMoltbookIdentity appKey audienceEnv req
          (RemoteBehavior.respond data)).response =
          some { status := 500, error := some "Failed to verify identity",
                 hint := some "An error occurred while verifying your identity. Please try again." })) := by
  refine ⟨by decide, by decide, by decide, by decide, by decide, by decide,
          by decide, by decide, by decide, by decide, by decide, ?_, ?_, ?_⟩
  · intro e he hp
    simp [getStatusCodeForError, propRead,
          find_eq_none_of_not_mem_keys statusMap e he, hp]
  · intro e he hp
    simp [getErrorHint, propRead,
          find_eq_none_of_not_mem_keys hintMap e he, hp]
  · intro appKey audienceEnv req t data ht htne hk hv
    have hft : strFalsy (some t) = false := by simp [strFalsy, htne]
    constructor
    · intro n hn
      unfold verifyMoltbookIdentity
      simp [ht, hft, hk, verifyTryBody, hv, hn]
    · intro name hn
      unfold verifyMoltbookIdentity
      simp [ht, hft, hk, verifyTryBody, hv, hn]

/-- Witness for C1 (amended) at the unrecognized non-prototype code
`"totally_unknown_code"` (401, generic hint) and at the prototype-named
code `"constructor"` (500 catch body from the middleware). -/
theorem claim_C1_witness :
    getStatusCodeForError (some "totally_unknown_code") = StatusResult.num 401 ∧
    getErrorHint (some "totally_unknown_code") =
      HintResult.str "Identity verification failed." ∧
    (verifyMoltbookIdentity (some "appkey") none
      { headers := [("x-moltbook-identity", "tok123")] }
      (RemoteBehavior.respond protoRejData)).response =
      some { status := 500, error := some "Failed to verify identity",
             hint := some "An error occurred while verifying your identity. Please try again." } := by
  have h := claim_C1
  refine ⟨h.2.2.2.2.2.2.2.2.2.2.2.1 "totally_unknown_code" (by decide) (by decide),
          h.2.2.2.2.2.2.2.2.2.2.2.2.1 "totally_unknown_code" (by decide) (by decide),
          ?_⟩
  exact (h.2.2.2.2.2.2.2.2.2.2.2.2.2 (some "appkey") none
    { headers := [("x-moltbook-identity", "tok123")] } "tok123" protoRejData
    (by decide) (by decide) (by decide) (by decide)).2 "constructor" (by decide)

/-- C2: a request whose identity header is absent or empty is terminated with
status 401 and the missing-token body; `next` is not called, no agent is
attached, and no outbound network call is made. -/
theorem claim_C2 (appKey audienceEnv : Option String) (req : Request)
    (remote : RemoteBehavior)
    (h : headerLookup req.headers "x-moltbook-identity" = none ∨
         headerLookup req.headers "x-moltbook-identity" = some "") :
    verifyMoltbookIdentity appKey audienceEnv req remote =
      { response := some { status := 401, error := some "Missing identity token",
                           hint := some "Include X-Moltbook-Identity header with your identity token" },
        nextCalls := 0, moltbookAgent := none, fetchCalled := none } := by
  unfold verifyMoltbookIdentity
  rcases h with h | h
  · simp [h, strFalsy]
  · have hf : strFalsy (some "") = true := by decide
    simp [h, hf]

/-- Witness for C2: a request with no headers at all. -/
theorem claim_C2_witness :
    verifyMoltbookIdentity (some "appkey") (some "svc.example") { headers := [] }
      RemoteBehavior.fetchError =
      { response := some { status := 401, error := some "Missing identity token",
                           hint := some "Include X-Moltbook-Identity header with your identity token" },
        nextCalls := 0, moltbookAgent := none, fetchCalled := none } :=
  claim_C2 _ _ _ _ (Or.inl (by decide))

/-- C3 as stated is false: with the application credential unset but the
identity header also absent, the middleware answers 401 (missing token),
not 500 — the token check runs before the credential check. -/
theorem claim_C3_counterexample :
    ¬ ((verifyMoltbookIdentity none none { headers := [] }
        RemoteBehavior.fetchError).response.map HttpResponse.status = some 500) := by
  decide

/-- C3 (amended): for every request that does carry a non-empty identity
token while the application credential is unset or empty, the middleware
terminates the request with status 500 and the configuration-error body,
does not call `next`, attaches no agent, and makes no outbound call;
moreover with the credential unset no request whatsoever triggers an
outbound call. -/
theorem claim_C3 (appKey audienceEnv : Option String) (req : Request)
    (remote : RemoteBehavior) (t : String)
    (ht : headerLookup req.headers "x-moltbook-identity" = some t)
    (htne : t.isEmpty = false) (hk : strFalsy appKey = true) :
    (verifyMoltbookIdentity appKey audienceEnv req remote =
      { response := some { status := 500, error := some "Server configuration error",
                           hint := some "MOLTBOOK_APP_KEY is not configured" },
        nextCalls := 0, moltbookAgent := none, fetchCalled := none }) ∧
    (∀ req2 : Request,
      (verifyMoltbookIdentity appKey audienceEnv req2 remote).fetchCalled = none) := by
  constructor
  · have hft : strFalsy (some t) = false := by simp [strFalsy, htne]
    unfold verifyMoltbookIdentity
    simp [ht, hft, hk]
  · intro req2
    unfold verifyMoltbookIdentity
    cases h2 : headerLookup req2.headers "x-moltbook-identity" with
    | none => simp [h2, strFalsy]
    | some t2 =>
      cases he2 : t2.isEmpty with
      | true =>
        have hf2 : strFalsy (some t2) = true := by simp [strFalsy, he2]
        simp [h2, hf2]
      | false =>
        have hf2 : strFalsy (some t2) = false := by simp [strFalsy, he2]
        simp [h2, hf2, hk]

/-- Witness for C3 (amended): token present, credential unset. -/
theorem claim_C3_witness :
    verifyMoltbookIdentity none none { headers := [("x-moltbook-identity", "tok123")] }
      RemoteBehavior.fetchError =
      { response := some { status := 500, error := some "Server configuration error",
                           hint := some "MOLTBOOK_APP_KEY is not configured" },
        nextCalls := 0, moltbookAgent := none, fetchCalled := none } :=
  (claim_C3 none none _ RemoteBehavior.fetchError "tok123"
    (by decide) (by decide) (by decide)).1

/-- C4: for every remote response `{valid: true, agent: A}` (on a request
with a present non-empty token and a configured credential), the middleware
attaches exactly the agent object `A` unmodified to `req.moltbookAgent`,
invokes `next` exactly once, and sends no error response. -/
theorem claim_C4 (appKey audienceEnv : Option String) (req : Request)
    (t : String) (ht : headerLookup req.headers "x-moltbook-identity" = some t)
    (htne : t.isEmpty = false) (hk : strFalsy appKey = false)
    (data : RemoteData) (hv : data.valid = true)
    (a : MoltbookAgent) (ha : data.agent = some a) :
    verifyMoltbookIdentity appKey audienceEnv req (RemoteBehavior.respond data) =
      { response := none, nextCalls := 1, moltbookAgent := some a,
        fetchCalled := some { token := t, audience := jsOr audienceEnv "default" } } := by
  have hft : strFalsy (some t) = false := by simp [strFalsy, htne]
  unfold verifyMoltbookIdentity
  simp [ht, hft, hk, verifyTryBody, hv, ha]

/-- Witness for C4: the end-to-end success scenario. -/
theorem claim_C4_witness :
    verifyMoltbookIdentity (some "appkey") none
      { headers := [("x-moltbook-identity", "tok123")] }
      (RemoteBehavior.respond { success := true, valid := true,
                                agent := some sampleAgent, error := none, hint := none }) =
      { response := none, nextCalls := 1, moltbookAgent := some sampleAgent,
        fetchCalled := some { token := "tok123", audience := "default" } } :=
  claim_C4 (some "appkey") none { headers := [("x-moltbook-identity", "tok123")] }
    "tok123" (by decide) (by decide) (by decide)
    { success := true, valid := true, agent := some sampleAgent, error := none, hint := none }
    rfl sampleAgent rfl

/-- C5: for every transport-level failure of the outbound call — the fetch
rejecting (network error / timeout) or the body parse rejecting (non-JSON /
malformed body) — the middleware produces a status-500
"Failed to verify identity" response with the generic retry hint; the
exception is absorbed by the `catch`, so no fault escapes to the host. -/
theorem claim_C5 (appKey audienceEnv : Option String) (req : Request)
    (t : String) (ht : headerLookup req.headers "x-moltbook-identity" = some t)
    (htne : t.isEmpty = false) (hk : strFalsy appKey = false)
    (remote : RemoteBehavior)
    (hr : remote = RemoteBehavior.fetchError ∨ remote = RemoteBehavior.jsonError) :
    verifyMoltbookIdentity appKey audienceEnv req remote =
      { response := some { status := 500, error := some "Failed to verify identity",
                           hint := some "An error occurred while verifying your identity. Please try again." },
        nextCalls := 0, moltbookAgent := none,
        fetchCalled := some { token := t, audience := jsOr audienceEnv "default" } } := by
  have hft : strFalsy (some t) = false := by simp [strFalsy, htne]
  unfold verifyMoltbookIdentity
  rcases hr with hr | hr <;> simp [ht, hft, hk, hr, verifyTryBody]

/-- Witness for C5: a network failure on a well-formed request. -/
theorem claim_C5_witness :
    verifyMoltbookIdentity (some "appkey") none
      { headers := [("x-moltbook-identity", "tok123")] } RemoteBehavior.fetchError =
      { response := some { status := 500, error := some "Failed to verify identity",
                           hint := some "An error occurred while verifying your identity. Please try again." },
        nextCalls := 0, moltbookAgent := none,
        fetchCalled := some { token := "tok123", audience := "default" } } :=
  claim_C5 (some "appkey") none { headers := [("x-moltbook-identity", "tok123")] }
    "tok123" (by decide) (by decide) (by decide) RemoteBehavior.fetchError (Or.inl rfl)

/-- C6: for every input and every remote behaviour, neither entry point
raises an unhandled fault to the host: every run of the middleware
terminates in a classified signal (an error response or the continue
signal), and every call of the standalone `verifyIdentityToken` settles
either with an explicit failure signal (a throw / rejected promise) or with
the remote's classified response body — never a silently empty result. -/
theorem claim_C6 (appKey audienceEnv : Option String) (req : Request)
    (remote : RemoteBehavior) (token : String) :
    ((verifyMoltbookIdentity appKey audienceEnv req remote).response.isSome = true ∨
     (verifyMoltbookIdentity appKey audienceEnv req remote).nextCalls = 1) ∧
    ((∃ e, (verifyIdentityToken appKey audienceEnv token remote).result = Except.error e) ∨
     (∃ d, (verifyIdentityToken appKey audienceEnv token remote).result = Except.ok d ∧
           remote = RemoteBehavior.respond d)) := by
  constructor
  · rcases verify_outcome_classified appKey audienceEnv req remote with ⟨h, _, _⟩ | ⟨_, h, _⟩
    · exact Or.inl h
    · exact Or.inr h
  · cases hk : strFalsy appKey with
    | true =>
      exact Or.inl ⟨JsError.thrown "MOLTBOOK_APP_KEY environment variable is not set",
        by simp [verifyIdentityToken, hk]⟩
    | false =>
      cases remote with
      | fetchError => exact Or.inl ⟨JsError.fetchFailed, by simp [verifyIdentityToken, hk]⟩
      | jsonError => exact Or.inl ⟨JsError.jsonParseFailed, by simp [verifyIdentityToken, hk]⟩
      | respond d => exact Or.inr ⟨d, by simp [verifyIdentityToken, hk], rfl⟩

/-- C10: whenever the middleware sends an error response, no agent is made
available to later stages and `next` is not invoked; and whenever `next` is
invoked, no error response was sent — the two signals are mutually
exclusive. -/
theorem claim_C10 (appKey audienceEnv : Option String) (req : Request)
    (remote : RemoteBehavior) :
    ((verifyMoltbookIdentity appKey audienceEnv req remote).response.isSome = true →
      (verifyMoltbookIdentity appKey audienceEnv req remote).moltbookAgent = none ∧
      (verifyMoltbookIdentity appKey audienceEnv req remote).nextCalls = 0) ∧
    ((verifyMoltbookIdentity appKey audienceEnv req remote).nextCalls = 1 →
      (verifyMoltbookIdentity appKey audienceEnv req remote).response = none) := by
  rcases verify_outcome_classified appKey audienceEnv req remote with
    ⟨_, h2, h3⟩ | ⟨h1, _, _⟩
  · exact ⟨fun _ => ⟨h3, h2⟩, fun hn => absurd (h2.symm.trans hn) (by decide)⟩
  · exact ⟨fun hs => by simp [h1] at hs, fun _ => h1⟩

/-- Witness for C10: a failing run (missing credential) has an error
response, no attached agent and no `next` call. -/
theorem claim_C10_witness :
    (verifyMoltbookIdentity none none { headers := [("x-moltbook-identity", "tok123")] }
      RemoteBehavior.fetchError).moltbookAgent = none ∧
    (verifyMoltbookIdentity none none { headers := [("x-moltbook-identity", "tok123")] }
      RemoteBehavior.fetchError).nextCalls = 0 :=
  (claim_C10 none none { headers := [("x-moltbook-identity", "tok123")] }
    RemoteBehavior.fetchError).1 (by decide)

/-- C7 as stated is false: at the rejection code `"constructor"` the two
entry points do not classify identically through the table — the standalone
returns the raw rejection body, while the middleware's status lookup passes
the inherited `Object.prototype.constructor` through, the response write
throws, and the catch sends the 500 "Failed to verify identity" body rather
than the table's 401/generic-hint classification. -/
theorem claim_C7_counterexample :
    (verifyIdentityToken (some "appkey") none "tok123"
      (RemoteBehavior.respond protoRejData)).result = Except.ok protoRejData ∧
    (verifyMoltbookIdentity (some "appkey") none
      { headers := [("x-moltbook-identity", "tok123")] }
      (RemoteBehavior.respond protoRejData)).response =
      some { status := 500, error := some "Failed to verify identity",
             hint := some "An error occurred while verifying your identity. Please try again." } ∧
    ¬ ((verifyMoltbookIdentity (some "appkey") none
      { headers := [("x-moltbook-identity", "tok123")] }
      (RemoteBehavior.respond protoRejData)).response =
      some { status := 401, error := some "constructor",
             hint := some "Identity verification failed." }) := by
  decide

/-- C7 (amended): on a request with a present non-empty token and a
configured credential, both entry points issue the same POST payload and
consult the single shared table: a remote rejection whose code's lookup
yields a number is classified identically — the standalone returns the raw
body carrying the code `E` and the middleware responds with exactly the
status/hint the shared table (`getStatusCodeForError` / `getErrorHint`)
assigns to that same `E`; a rejection whose unrecognized code names an
`Object.prototype` member instead yields the 500 catch body from the
middleware while the standalone still returns the raw rejection; a valid
response continues with the same agent; a transport failure is a rejection
of the standalone promise and a 500 from the middleware.  The
well-formedness hypothesis restricts `valid: true` responses to the remote
service's documented success shape, which always carries an agent. -/
theorem claim_C7 (appKey audienceEnv : Option String) (req : Request)
    (t : String) (ht : headerLookup req.headers "x-moltbook-identity" = some t)
    (htne : t.isEmpty = false) (hk : strFalsy appKey = false)
    (remote : RemoteBehavior)
    (hwf : ∀ d : RemoteData, remote = RemoteBehavior.respond d →
      d.valid = true → d.agent.isSome = true) :
    ((verifyIdentityToken appKey audienceEnv t remote).fetchCalled =
      (verifyMoltbookIdentity appKey audienceEnv req remote).fetchCalled) ∧
    (∀ d : RemoteData,
      (verifyIdentityToken appKey audienceEnv t remote).result = Except.ok d →
      (d.valid = false →
        (∀ n : Nat, getStatusCodeForError d.error = StatusResult.num n →
          (verifyMoltbookIdentity appKey audienceEnv req remote).response =
            some { status := n, error := d.error,
                   hint := jsonHint (getErrorHint d.error) }) ∧
        (∀ name : String,
          getStatusCodeForError d.error = StatusResult.nonNum name →
          (verifyMoltbookIdentity appKey audienceEnv req remote).response =
            some { status := 500, error := some "Failed to verify identity",
                   hint := some "An error occurred while verifying your identity. Please try again." })) ∧
      (d.valid = true →
        (verifyMoltbookIdentity appKey audienceEnv req remote).response = none ∧
        (verifyMoltbookIdentity appKey audienceEnv req remote).nextCalls = 1 ∧
        (verifyMoltbookIdentity appKey audienceEnv req remote).moltbookAgent = d.agent)) ∧
    (∀ e : JsError,
      (verifyIdentityToken appKey audienceEnv t remote).result = Except.error e →
      (verifyMoltbookIdentity appKey audienceEnv req remote).response.map
        HttpResponse.status = some 500) := by
  have hft : strFalsy (some t) = false := by simp [strFalsy, htne]
  cases remote with
  | fetchError =>
    refine ⟨?_, ?_, ?_⟩
    · simp [verifyIdentityToken, verifyMoltbookIdentity, ht, hft, hk, verifyTryBody]
    · intro d hd
      simp [verifyIdentityToken, hk] at hd
    · intro e _
      simp [verifyMoltbookIdentity, ht, hft, hk, verifyTryBody]
  | jsonError =>
    refine ⟨?_, ?_, ?_⟩
    · simp [verifyIdentityToken, verifyMoltbookIdentity, ht, hft, hk, verifyTryBody]
    · intro d hd
      simp [verifyIdentityToken, hk] at hd
    · intro e _
      simp [verifyMoltbookIdentity, ht, hft, hk, verifyTryBody]
  | respond d0 =>
    cases hv : d0.valid with
    | false =>
      refine ⟨?_, ?_, ?_⟩
      · cases hsc : getStatusCodeForError d0.error with
        | num n =>
          simp [verifyIdentityToken, verifyMoltbookIdentity, ht, hft, hk,
                verifyTryBody, hv, hsc]
        | nonNum name =>
          simp [verifyIdentityToken, verifyMoltbookIdentity, ht, hft, hk,
                verifyTryBody, hv, hsc]
      · intro d hd
        simp [verifyIdentityToken, hk] at hd
        subst hd
        refine ⟨fun _ => ⟨?_, ?_⟩,
                fun hvt => absurd (hv.symm.trans hvt) (by decide)⟩
        · intro n hn
          unfold verifyMoltbookIdentity
          simp [ht, hft, hk, verifyTryBody, hv, hn]
        · intro name hn
          unfold verifyMoltbookIdentity
          simp [ht, hft, hk, verifyTryBody, hv, hn]
      · intro e he
        simp [verifyIdentityToken, hk] at he
    | true =>
      obtain ⟨a, ha⟩ : ∃ a, d0.agent = some a := by
        have hs := hwf d0 rfl hv
        cases hag : d0.agent with
        | none => rw [hag] at hs; exact absurd hs (by decide)
        | some a => exact ⟨a, rfl⟩
      refine ⟨?_, ?_, ?_⟩
      · simp [verifyIdentityToken, verifyMoltbookIdentity, ht, hft, hk, verifyTryBody, hv, ha]
      · intro d hd
        simp [verifyIdentityToken, hk] at hd
        subst hd
        refine ⟨fun hvf => absurd (hv.symm.trans hvf) (by decide), fun _ => ?_⟩
        simp [verifyMoltbookIdentity, ht, hft, hk, verifyTryBody, hv, ha]
      · intro e he
        simp [verifyIdentityToken, hk] at he

/-- Witness for C7 (amended): a `rate_limit_exceeded` rejection is
classified through the shared table to status 429 by the middleware, on the
same body the standalone returns raw. -/
theorem claim_C7_witness :
    (verifyMoltbookIdentity (some "appkey") none
      { headers := [("x-moltbook-identity", "tok123")] }
      (RemoteBehavior.respond rejData)).response =
      some { status := 429, error := some "rate_limit_exceeded",
             hint := some "Too many verification requests. Please wait and try again." } := by
  have h := claim_C7 (some "appkey") none
    { headers := [("x-moltbook-identity", "tok123")] } "tok123"
    (by decide) (by decide) (by decide) (RemoteBehavior.respond rejData)
    (by intro d hd hv; cases hd; exact absurd hv (by decide))
  have hres := ((h.2.1 rejData rfl).1 rfl).1 429 (by decide)
  rw [hres]
  decide

/-- C8: every verification that reaches the outbound call (token present,
credential configured) sends a POST body containing the audience field,
equal to the configured audience string when one is configured (non-empty)
and to the documented default placeholder `"default"` when unset; this
holds for both entry points. -/
theorem claim_C8 (appKey audienceEnv : Option String) (req : Request)
    (remote : RemoteBehavior) (t : String)
    (ht : headerLookup req.headers "x-moltbook-identity" = some t)
    (htne : t.isEmpty = false) (hk : strFalsy appKey = false) :
    ((verifyMoltbookIdentity appKey audienceEnv req remote).fetchCalled =
      some { token := t, audience := jsOr audienceEnv "default" }) ∧
    ((verifyIdentityToken appKey audienceEnv t remote).fetchCalled =
      some { token := t, audience := jsOr audienceEnv "default" }) ∧
    (audienceEnv = none → jsOr audienceEnv "default" = "default") ∧
    (∀ a : String, audienceEnv = some a → a.isEmpty = false →
      jsOr audienceEnv "default" = a) := by
  have hft : strFalsy (some t) = false := by simp [strFalsy, htne]
  refine ⟨?_, ?_, ?_, ?_⟩
  · unfold verifyMoltbookIdentity
    cases hb : verifyTryBody remote with
    | ok r => simp [ht, hft, hk, hb]
    | error e =>
      obtain ⟨e1, e2⟩ := e
      simp [ht, hft, hk, hb]
  · unfold verifyIdentityToken
    cases remote <;> simp [hk]
  · intro h
    simp [h, jsOr]
  · intro a h hne
    simp [h, jsOr, hne]

/-- Witness for C8: with a configured audience the payload carries it. -/
theorem claim_C8_witness :
    (verifyMoltbookIdentity (some "appkey") (some "my-service.example")
      { headers := [("x-moltbook-identity", "tok123")] }
      RemoteBehavior.fetchError).fetchCalled =
      some { token := "tok123", audience := "my-service.example" } := by
  have h := claim_C8 (some "appkey") (some "my-service.example")
    { headers := [("x-moltbook-identity", "tok123")] } RemoteBehavior.fetchError
    "tok123" (by decide) (by decide) (by decide)
  have ha := h.2.2.2 "my-service.example" rfl (by decide)
  rw [h.1, ha]

/-- C9 as stated is false: with the configured header name
`"X-Moltbook-Identity"` the client sends the header under exactly that
name, the transport delivers the name lowercased, and the exact-key lookup
`req.headers[this.headerName]` misses — the token is not extracted, for any
casing of the incoming header. -/
theorem claim_C9_counterexample :
    tsExtractToken { apiKey := "appkey", audience := none, verifyEndpoint := none,
                     headerName := some "X-Moltbook-Identity" }
      [("X-Moltbook-Identity", "tok123")] = none := by
  decide

/-- C9 (amended): token extraction is case-insensitive in the casing of the
*sent* header: a header whose name lowercases (ASCII, as the transport
normalizes it) to the effective configured header name yields its value
whatever casing the client used.  Because the transport lowercases names,
this covers exactly the configured names that are already all-lowercase —
in particular the default `x-moltbook-identity` — while a configured name
containing an uppercase letter never matches (see the counterexample). -/
theorem claim_C9 (cfg : MoltbookAuthConfig) (n v : String)
    (rest : List (String × String))
    (hn : lowerAscii n = effectiveHeaderName cfg) :
    tsExtractToken cfg ((n, v) :: rest) = some v := by
  simp [tsExtractToken, normalizeHeaders, headerLookup, List.find?, hn]

/-- Witness for C9 (amended): an upper-cased sending of the default header
name still yields the token. -/
theorem claim_C9_witness :
    tsExtractToken { apiKey := "appkey", audience := none, verifyEndpoint := none,
                     headerName := none }
      [("X-MOLTBOOK-IDENTITY", "tok123")] = some "tok123" :=
  claim_C9 _ "X-MOLTBOOK-IDENTITY" "tok123" [] (by decide)

end Moltbook
